import Mathlib

/-!
# TradeConnect trading engine — verification of the specification

Shallow embedding of the decision/risk engine of the TradeConnect repository
(`server/services/tradingEngine.ts` and `server/services/marketDataService.ts`):
the entry evaluator, the risk manager (trailing stop, exit checks, target
points), the bot lifecycle controller's `startBot`, the indicator library
(RSI, EMA, standard deviation) and the backtest simulator.

JavaScript numbers are modelled as `ℚ`.  The one place the engine can produce
a `NaN` (the backtest-side RSI dividing `0 / 0` on a constant window) is
modelled with `Option ℚ`, `none` standing for `NaN`; every numeric comparison
against a `NaN` is false in JavaScript, which the embedding reproduces.
-/

/-- One market candle / snapshot.  The engine reads only the closing price and
the timestamp, so the other fields (symbol, open, high, low, volume) are
omitted. -/
structure Candle where
  close : ℚ
  timestamp : ℕ
deriving Repr, DecidableEq

/-- The indicator set consumed by the entry evaluator
(`TechnicalIndicators` minus the fields the evaluator never reads).
`rsi` is `Option ℚ`: `none` models a JavaScript `NaN` RSI — the
backtest-side RSI yields `NaN` on a constant window — and a comparison
against `NaN` is false. -/
structure IndicatorData where
  rsi : Option ℚ
  ema9 : ℚ
  ema21 : ℚ
  macd : ℚ
  macdSignal : ℚ
  volatilidade : ℚ
deriving Repr, DecidableEq

/-- Result record of `TradingEngine.calculateEntryScore`. -/
structure EntryScore where
  shouldEnter : Bool
  direction : String
  score : ℕ
deriving Repr, DecidableEq

/-- The RSI branch of `calculateEntryScore`: starting from score 0 and
direction `'COMPRA'`, `rsi >= 30 && rsi <= 70` adds 20; `else if rsi < 35`
adds 15 and sets direction `'COMPRA'`; `else if rsi > 65` adds 10 and sets
direction `'VENDA'`.  Returns the score and direction after this branch.
A NaN RSI (`none`) fails every comparison and leaves both unchanged. -/
def entryRsiStep (rsi : Option ℚ) : ℕ × String :=
  match rsi with
  | some r =>
      if 30 ≤ r ∧ r ≤ 70 then (20, "COMPRA")
      else if r < 35 then (15, "COMPRA")
      else if 65 < r then (10, "VENDA")
      else (0, "COMPRA")
  | none => (0, "COMPRA")

/-- The EMA trend branch of `calculateEntryScore`: `ema9 > ema21` adds 20 and
sets direction `'COMPRA'`; else adds 15 and sets direction `'VENDA'`.  The
direction assignment is unconditional, overwriting any RSI bias in `prev`. -/
def entryTrendStep (prev : ℕ × String) (ema9 ema21 : ℚ) : ℕ × String :=
  if ema21 < ema9 then (prev.1 + 20, "COMPRA") else (prev.1 + 15, "VENDA")

/-- Embedding of `TradingEngine.calculateEntryScore(marketData, indicators)`.

The source reads the evaluation wall-clock time with `new Date()`; that time
enters the embedding as explicit `hour`/`minute` parameters.  `marketData` is
a parameter of the source function but is never read by its body.  The
source's sequential mutation of `score` and `direction` is rendered as the
chain of steps in source order: RSI branch, EMA trend branch (the last write
to `direction`), MACD (+15), volatility in [20,200] (+20), session time
window (+25); `shouldEnter = score >= 60`. -/
def calculateEntryScore (marketData : Candle) (indicators : IndicatorData)
    (hour minute : ℕ) : EntryScore :=
  let s1 := entryRsiStep indicators.rsi
  let s2 := entryTrendStep s1 indicators.ema9 indicators.ema21
  -- MACD analysis: `macd > macdSignal` → +15.
  let s3 : ℕ := if indicators.macdSignal < indicators.macd then s2.1 + 15 else s2.1
  -- Volatility check: `volatilidade >= 20 && volatilidade <= 200` → +20.
  let s4 : ℕ :=
    if 20 ≤ indicators.volatilidade ∧ indicators.volatilidade ≤ 200 then s3 + 20 else s3
  -- Time window check: `(hour = 9 && minute >= 30) || (10 <= hour && hour < 17)
  -- || (hour = 17 && minute <= 25)` → +25.
  let s5 : ℕ :=
    if (hour = 9 ∧ 30 ≤ minute) ∨ (10 ≤ hour ∧ hour < 17) ∨ (hour = 17 ∧ minute ≤ 25) then
      s4 + 25
    else s4
  { shouldEnter := decide (60 ≤ s5), direction := s2.2, score := s5 }

/-- Score contributed by the RSI branch, as a plain conditional. -/
theorem entryRsiStep_fst (r : ℚ) :
    (entryRsiStep (some r)).1 =
      if 30 ≤ r ∧ r ≤ 70 then 20 else if r < 35 then 15 else if 65 < r then 10 else 0 := by
  simp only [entryRsiStep]
  split_ifs <;> rfl

/-- Score after the trend branch: previous score plus 20 or 15. -/
theorem entryTrendStep_fst (prev : ℕ × String) (e9 e21 : ℚ) :
    (entryTrendStep prev e9 e21).1 = prev.1 + (if e21 < e9 then 20 else 15) := by
  simp only [entryTrendStep]
  split_ifs <;> rfl

/-- Direction after the trend branch is determined by the EMA comparison. -/
theorem entryTrendStep_snd (prev : ℕ × String) (e9 e21 : ℚ) :
    (entryTrendStep prev e9 e21).2 = if e21 < e9 then "COMPRA" else "VENDA" := by
  simp only [entryTrendStep]
  split_ifs <;> rfl

/-- Accumulating conditional rewritten as an added conditional weight. -/
theorem ite_add_weight {c : Prop} [Decidable c] (a k : ℕ) :
    (if c then a + k else a) = a + (if c then k else 0) := by
  split_ifs <;> omega

/-- C1: for every market snapshot, indicator set (with a numeric RSI) and
evaluation time, the entry score is the sum of the five signal weights —
+20 for RSI in [30,70], else +15 for RSI < 35, else +10 for RSI > 65;
+20 for EMA9 > EMA21, else +15; +15 for MACD > signal; +20 for volatility
in [20,200]; +25 for an evaluation time inside the 09:30–17:25 window —
`shouldEnter` holds exactly when this score is at least 60, and the score
never exceeds 100. -/
theorem calculateEntryScore_score_spec (marketData : Candle)
    (indicators : IndicatorData) (hour minute : ℕ) (r : ℚ)
    (hr : indicators.rsi = some r) (hm : minute < 60) :
    (calculateEntryScore marketData indicators hour minute).score =
      (if 30 ≤ r ∧ r ≤ 70 then 20 else if r < 35 then 15 else if 65 < r then 10 else 0)
      + (if indicators.ema21 < indicators.ema9 then 20 else 15)
      + (if indicators.macdSignal < indicators.macd then 15 else 0)
      + (if 20 ≤ indicators.volatilidade ∧ indicators.volatilidade ≤ 200 then 20 else 0)
      + (if 9 * 60 + 30 ≤ hour * 60 + minute ∧ hour * 60 + minute ≤ 17 * 60 + 25
          then 25 else 0)
    ∧ ((calculateEntryScore marketData indicators hour minute).shouldEnter = true ↔
        60 ≤ (calculateEntryScore marketData indicators hour minute).score)
    ∧ (calculateEntryScore marketData indicators hour minute).score ≤ 100 := by
  have htime : ((hour = 9 ∧ 30 ≤ minute) ∨ (10 ≤ hour ∧ hour < 17) ∨
      (hour = 17 ∧ minute ≤ 25)) ↔
      (9 * 60 + 30 ≤ hour * 60 + minute ∧ hour * 60 + minute ≤ 17 * 60 + 25) := by
    omega
  refine ⟨?_, ?_, ?_⟩
  · simp only [calculateEntryScore, hr, entryTrendStep_fst, entryRsiStep_fst,
      ite_add_weight, htime]
  · simp only [calculateEntryScore, decide_eq_true_eq]
  · simp only [calculateEntryScore, hr, entryTrendStep_fst, entryRsiStep_fst,
      ite_add_weight]
    split_ifs <;> omega

/-- Witness for C1 at a concrete input: RSI 55, EMA9 112500 > EMA21 112400,
MACD 3/20 > signal 1/10, volatility 100, time 10:00. -/
theorem calculateEntryScore_score_spec_witness :
    (⟨some 55, 112500, 112400, 3/20, 1/10, 100⟩ : IndicatorData).rsi = some 55
    ∧ (0 : ℕ) < 60
    ∧ ((calculateEntryScore ⟨112450, 0⟩ ⟨some 55, 112500, 112400, 3/20, 1/10, 100⟩ 10 0).score =
        (if (30 : ℚ) ≤ 55 ∧ (55 : ℚ) ≤ 70 then 20
          else if (55 : ℚ) < 35 then 15 else if (65 : ℚ) < 55 then 10 else 0)
        + (if (112400 : ℚ) < 112500 then 20 else 15)
        + (if (1/10 : ℚ) < 3/20 then 15 else 0)
        + (if (20 : ℚ) ≤ 100 ∧ (100 : ℚ) ≤ 200 then 20 else 0)
        + (if 9 * 60 + 30 ≤ 10 * 60 + 0 ∧ 10 * 60 + 0 ≤ 17 * 60 + 25 then 25 else 0)
      ∧ ((calculateEntryScore ⟨112450, 0⟩ ⟨some 55, 112500, 112400, 3/20, 1/10, 100⟩ 10 0).shouldEnter = true ↔
          60 ≤ (calculateEntryScore ⟨112450, 0⟩ ⟨some 55, 112500, 112400, 3/20, 1/10, 100⟩ 10 0).score)
      ∧ (calculateEntryScore ⟨112450, 0⟩ ⟨some 55, 112500, 112400, 3/20, 1/10, 100⟩ 10 0).score ≤ 100) :=
  ⟨rfl, by decide,
    calculateEntryScore_score_spec ⟨112450, 0⟩ ⟨some 55, 112500, 112400, 3/20, 1/10, 100⟩
      10 0 55 rfl (by decide)⟩

/-- C2: the direction of the entry decision depends only on the EMA9/EMA21
comparison: two indicator sets that agree on `ema9` and `ema21` yield the
same direction at any market snapshot and evaluation time, and that direction
is `COMPRA` exactly when EMA9 > EMA21 and `VENDA` otherwise. -/
theorem calculateEntryScore_direction_trend_only
    (md md2 : Candle) (ind ind2 : IndicatorData) (h m h2 m2 : ℕ)
    (he9 : ind.ema9 = ind2.ema9) (he21 : ind.ema21 = ind2.ema21) :
    (calculateEntryScore md ind h m).direction =
      (calculateEntryScore md2 ind2 h2 m2).direction
    ∧ ((calculateEntryScore md ind h m).direction = "COMPRA" ↔ ind.ema21 < ind.ema9)
    ∧ ((calculateEntryScore md ind h m).direction = "VENDA" ↔ ¬ ind.ema21 < ind.ema9) := by
  simp only [calculateEntryScore, entryTrendStep_snd, he9, he21]
  split_ifs with hlt <;> simp [hlt]

/-- Witness for C2 at concrete inputs: the two indicator sets agree on the
EMAs (9 > 21 side) but differ in RSI, MACD, volatility, and the times differ. -/
theorem calculateEntryScore_direction_trend_only_witness :
    (⟨some 10, 5, 3, 1, 0, 100⟩ : IndicatorData).ema9 =
      (⟨none, 5, 3, 0, 1, 500⟩ : IndicatorData).ema9
    ∧ (⟨some 10, 5, 3, 1, 0, 100⟩ : IndicatorData).ema21 =
      (⟨none, 5, 3, 0, 1, 500⟩ : IndicatorData).ema21
    ∧ ((calculateEntryScore ⟨100, 0⟩ ⟨some 10, 5, 3, 1, 0, 100⟩ 10 0).direction =
        (calculateEntryScore ⟨200, 7⟩ ⟨none, 5, 3, 0, 1, 500⟩ 3 59).direction
      ∧ ((calculateEntryScore ⟨100, 0⟩ ⟨some 10, 5, 3, 1, 0, 100⟩ 10 0).direction = "COMPRA" ↔
          (⟨some 10, 5, 3, 1, 0, 100⟩ : IndicatorData).ema21 <
            (⟨some 10, 5, 3, 1, 0, 100⟩ : IndicatorData).ema9)
      ∧ ((calculateEntryScore ⟨100, 0⟩ ⟨some 10, 5, 3, 1, 0, 100⟩ 10 0).direction = "VENDA" ↔
          ¬ (⟨some 10, 5, 3, 1, 0, 100⟩ : IndicatorData).ema21 <
            (⟨some 10, 5, 3, 1, 0, 100⟩ : IndicatorData).ema9)) :=
  ⟨rfl, rfl,
    calculateEntryScore_direction_trend_only ⟨100, 0⟩ ⟨200, 7⟩
      ⟨some 10, 5, 3, 1, 0, 100⟩ ⟨none, 5, 3, 0, 1, 500⟩ 10 0 3 59 rfl rfl⟩

/-- C10: for every market snapshot, indicator set (including a NaN RSI) and
evaluation time, the entry score lies in [15, 100]: the EMA trend branch
always contributes at least 15, and the weights sum to at most 100. -/
theorem calculateEntryScore_score_bounds (md : Candle) (ind : IndicatorData)
    (h m : ℕ) :
    15 ≤ (calculateEntryScore md ind h m).score ∧
      (calculateEntryScore md ind h m).score ≤ 100 := by
  rcases hrsi : ind.rsi with _ | r <;>
    simp only [calculateEntryScore, hrsi, entryTrendStep_fst, entryRsiStep_fst,
      entryRsiStep, ite_add_weight] <;>
    split_ifs <;> omega

/-- Sum of gains and of losses over the deltas `prices[i] - prices[i-1]` for
the indices in `idxs`, accumulated exactly as both RSI loops do:
`change > 0` adds to gains, otherwise `losses -= change`. -/
def gainLoss (prices : List ℚ) (idxs : List ℕ) : ℚ × ℚ :=
  idxs.foldl
    (fun gl i =>
      let change := prices.getD i 0 - prices.getD (i - 1) 0
      if 0 < change then (gl.1 + change, gl.2) else (gl.1, gl.2 - change))
    (0, 0)

/-- Embedding of `MarketDataService.calculateRSI(prices, period)`: fewer than `period + 1`
prices → neutral 50; otherwise sums gains/losses over the last `period`
deltas (loop `i` from `prices.length - period` to `prices.length - 1`), and
guards the zero-average-loss case, returning the clamped value 100. -/
def MarketDataService.calculateRSI (prices : List ℚ) (period : ℕ) : ℚ :=
  if prices.length < period + 1 then 50
  else
    let gl := gainLoss prices (List.range' (prices.length - period) period)
    let avgGain := gl.1 / period
    let avgLoss := gl.2 / period
    if avgLoss = 0 then 100
    else 100 - 100 / (1 + avgGain / avgLoss)

/-- Embedding of `TradingEngine.calculateRSI(prices, period)`: fewer than `period + 1`
prices → neutral 50; otherwise sums gains/losses over the FIRST `period`
deltas (loop `i` from 1 to `period`) and computes
`100 - 100 / (1 + avgGain / avgLoss)` with no zero-loss guard.  The
division follows JavaScript float semantics when `avgLoss = 0`: a positive
`avgGain` gives `rs = Infinity` and a result of exactly 100, while
`avgGain = 0` gives `rs = 0/0 = NaN`, which propagates to a `NaN` result,
modelled as `none`. -/
def TradingEngine.calculateRSI (prices : List ℚ) (period : ℕ) : Option ℚ :=
  if prices.length < period + 1 then some 50
  else
    let gl := gainLoss prices (List.range' 1 period)
    let avgGain := gl.1 / period
    let avgLoss := gl.2 / period
    if avgLoss = 0 then
      if 0 < avgGain then some 100 else none
    else some (100 - 100 / (1 + avgGain / avgLoss))

/-- Embedding of `calculateEMA(prices, period)` (identical in both services): empty input
→ 0; otherwise an exponential average seeded with the first element and
folded over the remaining elements with multiplier `2 / (period + 1)`.
(The source's special case for a one-element input returns `prices[0]`,
which the fold also yields on an empty tail.) -/
def calculateEMA (prices : List ℚ) (period : ℕ) : ℚ :=
  match prices with
  | [] => 0
  | p0 :: rest =>
    let multiplier : ℚ := 2 / (period + 1)
    rest.foldl (fun ema p => p * multiplier + ema * (1 - multiplier)) p0

/-- Computable stand-in for `Math.sqrt` as applied to the variance inside
`calculateStandardDeviation`.  The engine reads the resulting volatility
only through the test `20 ≤ v ∧ v ≤ 200` in `calculateEntryScore`, and for
a nonnegative variance `20 ≤ sqrt variance ∧ sqrt variance ≤ 200` holds
exactly when `400 ≤ variance ∧ variance ≤ 40000`; this function lands in
the same band as the true square root on each of the three regions, so
every engine observation of the volatility is preserved. -/
def sqrtProxy (variance : ℚ) : ℚ :=
  if variance < 400 then 0
  else if variance ≤ 40000 then 100
  else 40000

/-- Embedding of `calculateStandardDeviation(prices)` (identical in both services):
empty input → 0; otherwise the square root of the population variance
(mean of squared deviations from the mean), the square root taken through
`sqrtProxy`. -/
def calculateStandardDeviation (prices : List ℚ) : ℚ :=
  if prices.length = 0 then 0
  else
    let mean := prices.sum / prices.length
    let variance := (prices.map (fun p => ((p - mean) ^ 2 : ℚ))).sum / prices.length
    sqrtProxy variance

/-- C8 (code-bug evidence): on a constant price series of 10 prices with
period 9 — length ≥ period + 1 — the engine-side RSI computes
`avgGain = avgLoss = 0`, divides `0 / 0` and returns NaN (`none`): neither a
value in [0,100] nor the claimed 100 at zero average loss.  The service-side
RSI, which carries the zero-average-loss guard the claim describes, returns
100 on the same input. -/
theorem tradingEngine_calculateRSI_constant_nan :
    TradingEngine.calculateRSI (List.replicate 10 5) 9 = none
    ∧ MarketDataService.calculateRSI (List.replicate 10 5) 9 = 100 := by
  constructor <;>
    norm_num [TradingEngine.calculateRSI, MarketDataService.calculateRSI, gainLoss,
      List.range', List.replicate]

/-- C9 (counterexample): on prices [3,1,2,1] with period 2 the two RSI
implementations disagree — the engine-side copy sums the first two deltas
(−2 then +1), giving 100/3, while the service-side copy sums the last two
deltas (+1 then −1), giving 50 — refuting the claim that they return
identical results for every price series and period. -/
theorem calculateRSI_implementations_disagree :
    TradingEngine.calculateRSI [3, 1, 2, 1] 2 = some (100 / 3)
    ∧ MarketDataService.calculateRSI [3, 1, 2, 1] 2 = 50
    ∧ TradingEngine.calculateRSI [3, 1, 2, 1] 2 ≠
        some (MarketDataService.calculateRSI [3, 1, 2, 1] 2) := by
  refine ⟨?_, ?_, ?_⟩ <;>
    norm_num [TradingEngine.calculateRSI, MarketDataService.calculateRSI, gainLoss,
      List.range']

/-- C9 (amended): the two RSI implementations agree on every series shorter
than `period + 1` (both neutral at 50), and on every series of length exactly
`period + 1` whose summed loss over the deltas is nonzero (there the two
loops traverse the same index range `1, …, period`); in general they differ,
the service summing the last `period` deltas and the engine the first
`period`, the engine also lacking the zero-average-loss guard. -/
theorem calculateRSI_agree_on_full_window (prices : List ℚ) (period : ℕ) :
    (prices.length < period + 1 →
      TradingEngine.calculateRSI prices period =
        some (MarketDataService.calculateRSI prices period)) ∧
    (prices.length = period + 1 →
      (gainLoss prices (List.range' 1 period)).2 ≠ 0 →
      TradingEngine.calculateRSI prices period =
        some (MarketDataService.calculateRSI prices period)) := by
  constructor
  · intro hshort
    simp only [TradingEngine.calculateRSI, MarketDataService.calculateRSI, if_pos hshort]
  · intro hlen hlz
    have hnl : ¬ prices.length < period + 1 := by omega
    have h1 : prices.length - period = 1 := by omega
    have hp : (period : ℚ) ≠ 0 := by
      have hper : period ≠ 0 := by
        intro h0
        exact hlz (by subst h0; rfl)
      exact_mod_cast hper
    have hal : (gainLoss prices (List.range' 1 period)).2 / (period : ℚ) ≠ 0 :=
      div_ne_zero hlz hp
    simp only [TradingEngine.calculateRSI, MarketDataService.calculateRSI, if_neg hnl, h1,
      if_neg hal]

/-- Witness for the amended C9 at a concrete input: [2, 1] with period 1 has
length exactly period + 1 and loss sum 1 ≠ 0; both implementations return 0. -/
theorem calculateRSI_agree_on_full_window_witness :
    ([2, 1] : List ℚ).length = 1 + 1
    ∧ (gainLoss [2, 1] (List.range' 1 1)).2 ≠ 0
    ∧ TradingEngine.calculateRSI [2, 1] 1 =
        some (MarketDataService.calculateRSI [2, 1] 1) :=
  ⟨rfl, by norm_num [gainLoss, List.range'],
    (calculateRSI_agree_on_full_window [2, 1] 1).2 rfl
      (by norm_num [gainLoss, List.range'])⟩

/-- Contract specification entry of `TradingEngine.getContractSpec`. -/
structure ContractSpec where
  nome : String
  valorPonto : ℚ
  tickSize : ℚ
deriving Repr, DecidableEq

/-- Embedding of `TradingEngine.getContractSpec(contract)`: `'WIN'` and `'WDO'` map to
their specifications; any other symbol falls back to the WIN specification
(`specs[contract] || specs.WIN`). -/
def getContractSpec (contract : String) : ContractSpec :=
  if contract = "WIN" then ⟨"Mini Índice Bovespa", 0.20, 5⟩
  else if contract = "WDO" then ⟨"Mini Dólar", 0.50, 0.5⟩
  else ⟨"Mini Índice Bovespa", 0.20, 5⟩

/-- Bot configuration (`BotConfiguration` of the shared schema, restricted to
the fields the engine reads).  `metaLucroDiario` is stored as a string in the
schema and read through `parseFloat`; it is modelled as the parsed rational. -/
structure BotConfiguration where
  id : String
  contratoPreferido : String
  contratos : ℕ
  metaLucroDiario : ℚ
  stopLossPontos : ℚ
  maxTradesDia : ℕ
  trailingStopAtivo : Bool
  trailingStopPontos : ℚ
  isActive : Bool
deriving Repr, DecidableEq

/-- JavaScript `Math.round`: half-integers round toward positive infinity. -/
def jsRound (x : ℚ) : ℤ := ⌊x + 1 / 2⌋

/-- Embedding of `TradingEngine.calculateTargetPoints(config)`:
`max(1, round((metaLucroDiario / maxTradesDia) / (valorPonto * contratos)))`. -/
def calculateTargetPoints (config : BotConfiguration) : ℤ :=
  let contractSpec := getContractSpec config.contratoPreferido
  let valuePerPoint := contractSpec.valorPonto * config.contratos
  let targetValue := config.metaLucroDiario / config.maxTradesDia
  max 1 (jsRound (targetValue / valuePerPoint))

/-- An open trade (`Trade` of the shared schema, restricted to the fields the
position-monitoring code reads).  `tipo` is `'COMPRA'` or `'VENDA'`. -/
structure Trade where
  id : String
  botConfigId : String
  contrato : String
  tipo : String
  pontosEntrada : ℚ
  pontosTakeProfit : ℚ
  pontosStopLoss : ℚ
  contratos : ℕ
  valorPorPonto : ℚ
deriving Repr, DecidableEq

/-- Embedding of `TradingEngine.updateTrailingStop(userId, trade, currentPrice,
trailingPoints)`: the candidate stop for a long (`'COMPRA'`) trade is
`currentPrice - trailingPoints`, applied only when strictly above the
current stop-loss; for a short trade the candidate is
`currentPrice + trailingPoints`, applied only when strictly below.  The
result is the new stop-loss passed to `storage.updateTradeStopLoss`, or
`none` when no update call occurs. -/
def updateTrailingStop (trade : Trade) (currentPrice trailingPoints : ℚ) :
    Option ℚ :=
  if trade.tipo = "COMPRA" then
    let trailingStop := currentPrice - trailingPoints
    if trade.pontosStopLoss < trailingStop then some trailingStop else none
  else
    let trailingStop := currentPrice + trailingPoints
    if trailingStop < trade.pontosStopLoss then some trailingStop else none

/-- Exit decision computed at the top of `TradingEngine.monitorPosition`:
`shouldClose`, `exitReason` (initially the empty string) and `exitPrice`
(initially the live `currentPrice`).  A long trade closes at
`currentPrice >= takeProfit` (reason `TAKE_PROFIT`, exit at the take-profit
level), else at `currentPrice <= stopLoss` (reason `STOP_LOSS`, exit at the
stop-loss level); a short trade is mirrored. -/
def monitorPositionExit (trade : Trade) (currentPrice : ℚ) :
    Bool × String × ℚ :=
  if trade.tipo = "COMPRA" then
    if trade.pontosTakeProfit ≤ currentPrice then
      (true, "TAKE_PROFIT", trade.pontosTakeProfit)
    else if currentPrice ≤ trade.pontosStopLoss then
      (true, "STOP_LOSS", trade.pontosStopLoss)
    else (false, "", currentPrice)
  else
    if currentPrice ≤ trade.pontosTakeProfit then
      (true, "TAKE_PROFIT", trade.pontosTakeProfit)
    else if trade.pontosStopLoss ≤ currentPrice then
      (true, "STOP_LOSS", trade.pontosStopLoss)
    else (false, "", currentPrice)

/-- C3: for every configuration with at least one trade per day, at least one
contract, and a positive point value, `calculateTargetPoints` equals
`max(1, round((metaLucroDiario / maxTradesDia) / (valorPonto × contratos)))`,
hence is at least 1; and for the WIN contract with daily target 500, three
trades and one contract the result (833) exceeds 800. -/
theorem calculateTargetPoints_spec :
    (∀ config : BotConfiguration,
      1 ≤ config.maxTradesDia → 1 ≤ config.contratos →
      0 < (getContractSpec config.contratoPreferido).valorPonto →
      calculateTargetPoints config =
        max 1 (jsRound ((config.metaLucroDiario / config.maxTradesDia) /
          ((getContractSpec config.contratoPreferido).valorPonto * config.contratos)))
      ∧ 1 ≤ calculateTargetPoints config) ∧
    800 < calculateTargetPoints ⟨"cfg", "WIN", 1, 500, 150, 3, true, 50, false⟩ := by
  constructor
  · intro config h1 h2 h3
    exact ⟨rfl, le_max_left 1 _⟩
  · have h : calculateTargetPoints ⟨"cfg", "WIN", 1, 500, 150, 3, true, 50, false⟩ =
        max 1 (jsRound ((2500 : ℚ) / 3)) := by
      simp only [calculateTargetPoints, getContractSpec]
      norm_num
    have h2 : jsRound ((2500 : ℚ) / 3) = 833 := by
      unfold jsRound
      rw [Int.floor_eq_iff]
      norm_num
    rw [h, h2]
    norm_num

/-- Witness for C3: the universally quantified part applied to the same
concrete WIN configuration used in the claim. -/
theorem calculateTargetPoints_spec_witness :
    1 ≤ (⟨"cfg", "WIN", 1, 500, 150, 3, true, 50, false⟩ : BotConfiguration).maxTradesDia
    ∧ 1 ≤ (⟨"cfg", "WIN", 1, 500, 150, 3, true, 50, false⟩ : BotConfiguration).contratos
    ∧ 0 < (getContractSpec "WIN").valorPonto
    ∧ (calculateTargetPoints ⟨"cfg", "WIN", 1, 500, 150, 3, true, 50, false⟩ =
        max 1 (jsRound (((500 : ℚ) / 3) / ((getContractSpec "WIN").valorPonto * 1)))
      ∧ 1 ≤ calculateTargetPoints ⟨"cfg", "WIN", 1, 500, 150, 3, true, 50, false⟩) :=
  ⟨by norm_num, by norm_num, by norm_num [getContractSpec],
    (calculateTargetPoints_spec.1 ⟨"cfg", "WIN", 1, 500, 150, 3, true, 50, false⟩
      (by norm_num) (by norm_num) (by norm_num [getContractSpec]))⟩

/-- C4: the trailing-stop update never loosens a stop: a long trade's stop is
replaced by `price − trailingPoints` exactly when that candidate is strictly
above the current stop-loss, a short trade's stop by `price + trailingPoints`
exactly when strictly below, and otherwise no update call occurs. -/
theorem updateTrailingStop_spec (trade : Trade) (price trailing : ℚ) :
    (trade.tipo = "COMPRA" →
      (updateTrailingStop trade price trailing = some (price - trailing) ↔
        trade.pontosStopLoss < price - trailing)
      ∧ (updateTrailingStop trade price trailing = none ↔
        ¬ trade.pontosStopLoss < price - trailing))
    ∧ (trade.tipo ≠ "COMPRA" →
      (updateTrailingStop trade price trailing = some (price + trailing) ↔
        price + trailing < trade.pontosStopLoss)
      ∧ (updateTrailingStop trade price trailing = none ↔
        ¬ price + trailing < trade.pontosStopLoss)) := by
  constructor
  · intro hl
    simp only [updateTrailingStop, if_pos hl]
    split_ifs with hc <;> simp [hc]
  · intro hs
    simp only [updateTrailingStop, if_neg hs]
    split_ifs with hc <;> simp [hc]

/-- Witness for C4 at the spec's concrete inputs: long trade with stop-loss
112000, price 112200, trailing distance 50 — candidate 112150 improves the
stop, and the iff confirms the update. -/
theorem updateTrailingStop_spec_witness :
    (⟨"t1", "c1", "WIN", "COMPRA", 112100, 112300, 112000, 1, 0.20⟩ : Trade).tipo =
      "COMPRA"
    ∧ ((updateTrailingStop ⟨"t1", "c1", "WIN", "COMPRA", 112100, 112300, 112000, 1, 0.20⟩
          112200 50 = some (112200 - 50) ↔
        (⟨"t1", "c1", "WIN", "COMPRA", 112100, 112300, 112000, 1, 0.20⟩ : Trade).pontosStopLoss <
          112200 - 50)
      ∧ (updateTrailingStop ⟨"t1", "c1", "WIN", "COMPRA", 112100, 112300, 112000, 1, 0.20⟩
          112200 50 = none ↔
        ¬ (⟨"t1", "c1", "WIN", "COMPRA", 112100, 112300, 112000, 1, 0.20⟩ : Trade).pontosStopLoss <
          112200 - 50)) :=
  ⟨rfl, (updateTrailingStop_spec
      ⟨"t1", "c1", "WIN", "COMPRA", 112100, 112300, 112000, 1, 0.20⟩ 112200 50).1 rfl⟩

/-- C5: on a monitoring tick, a long trade (stop-loss below take-profit)
closes exactly when the price reaches the take-profit (reason `TAKE_PROFIT`,
exit at the take-profit level) or falls to the stop-loss (reason
`STOP_LOSS`, exit at the stop-loss level); the short case is mirrored; and
whenever the position closes, the recorded exit price is one of the two
configured levels, never the live tick price. -/
theorem monitorPositionExit_spec (trade : Trade) (price : ℚ) :
    (trade.tipo = "COMPRA" → trade.pontosStopLoss < trade.pontosTakeProfit →
      ((monitorPositionExit trade price).1 = true ↔
        (trade.pontosTakeProfit ≤ price ∨ price ≤ trade.pontosStopLoss))
      ∧ (trade.pontosTakeProfit ≤ price →
          monitorPositionExit trade price =
            (true, "TAKE_PROFIT", trade.pontosTakeProfit))
      ∧ (price ≤ trade.pontosStopLoss →
          monitorPositionExit trade price =
            (true, "STOP_LOSS", trade.pontosStopLoss)))
    ∧ (trade.tipo ≠ "COMPRA" → trade.pontosTakeProfit < trade.pontosStopLoss →
      ((monitorPositionExit trade price).1 = true ↔
        (price ≤ trade.pontosTakeProfit ∨ trade.pontosStopLoss ≤ price))
      ∧ (price ≤ trade.pontosTakeProfit →
          monitorPositionExit trade price =
            (true, "TAKE_PROFIT", trade.pontosTakeProfit))
      ∧ (trade.pontosStopLoss ≤ price →
          monitorPositionExit trade price =
            (true, "STOP_LOSS", trade.pontosStopLoss)))
    ∧ ((monitorPositionExit trade price).1 = true →
        (monitorPositionExit trade price).2.2 = trade.pontosTakeProfit ∨
        (monitorPositionExit trade price).2.2 = trade.pontosStopLoss) := by
  refine ⟨?_, ?_, ?_⟩
  · intro hl hord
    simp only [monitorPositionExit, if_pos hl]
    split_ifs with h1 h2
    · exact ⟨by simp [h1], fun _ => rfl, fun h3 => absurd hord (by push_neg; linarith)⟩
    · exact ⟨by simp [h2], fun h3 => absurd h3 h1, fun _ => rfl⟩
    · refine ⟨by simp [h1, h2], fun h3 => absurd h3 h1, fun h3 => absurd h3 h2⟩
  · intro hs hord
    simp only [monitorPositionExit, if_neg hs]
    split_ifs with h1 h2
    · exact ⟨by simp [h1], fun _ => rfl, fun h3 => absurd hord (by push_neg; linarith)⟩
    · exact ⟨by simp [h2], fun h3 => absurd h3 h1, fun _ => rfl⟩
    · refine ⟨by simp [h1, h2], fun h3 => absurd h3 h1, fun h3 => absurd h3 h2⟩
  · simp only [monitorPositionExit]
    split_ifs <;> simp

/-- Witness for C5: a long trade with take-profit 112300 above stop-loss
112000, monitored at price 112350, closes with reason `TAKE_PROFIT` at the
configured take-profit level. -/
theorem monitorPositionExit_spec_witness :
    (⟨"t1", "c1", "WIN", "COMPRA", 112100, 112300, 112000, 1, 0.20⟩ : Trade).tipo =
      "COMPRA"
    ∧ (⟨"t1", "c1", "WIN", "COMPRA", 112100, 112300, 112000, 1, 0.20⟩ : Trade).pontosStopLoss <
        (⟨"t1", "c1", "WIN", "COMPRA", 112100, 112300, 112000, 1, 0.20⟩ : Trade).pontosTakeProfit
    ∧ (((monitorPositionExit ⟨"t1", "c1", "WIN", "COMPRA", 112100, 112300, 112000, 1, 0.20⟩
          112350).1 = true ↔
        ((112300 : ℚ) ≤ 112350 ∨ (112350 : ℚ) ≤ 112000))
      ∧ ((112300 : ℚ) ≤ 112350 →
          monitorPositionExit ⟨"t1", "c1", "WIN", "COMPRA", 112100, 112300, 112000, 1, 0.20⟩
            112350 = (true, "TAKE_PROFIT", 112300))
      ∧ ((112350 : ℚ) ≤ 112000 →
          monitorPositionExit ⟨"t1", "c1", "WIN", "COMPRA", 112100, 112300, 112000, 1, 0.20⟩
            112350 = (true, "STOP_LOSS", 112000))) :=
  ⟨rfl, by norm_num,
    (monitorPositionExit_spec
      ⟨"t1", "c1", "WIN", "COMPRA", 112100, 112300, 112000, 1, 0.20⟩ 112350).1
      rfl (by norm_num)⟩

/-- Per-user runtime state (`BotStatus`) created by `startBot`. -/
structure BotStatus where
  isActive : Bool
  userId : String
  configId : String
  dailyTrades : ℕ
  dailyProfit : ℚ
deriving Repr, DecidableEq

/-- An audit log row written through `storage.createBotLog`. -/
structure BotLogEntry where
  userId : String
  botConfigId : String
  level : String
  message : String
deriving Repr, DecidableEq

/-- The state read and written by `TradingEngine.startBot`: the in-memory
`activeBots` registry (user id → `BotStatus`), the stored configurations'
`isActive` flags (config id → flag, via `storage.updateBotConfiguration`),
the `intervalHandles` monitoring schedule (users with a 30-second monitor
timer), the stored trade records, and the audit log. -/
structure EngineState where
  activeBots : List (String × BotStatus)
  configActive : List (String × Bool)
  intervalHandles : List String
  trades : List Trade
  botLogs : List BotLogEntry
deriving Repr, DecidableEq

/-- Keyed update in an association list (the semantics of `Map#set` and of
a keyed storage update): replaces the first binding of the key, or appends
a new binding. -/
def mapSet {β : Type} (m : List (String × β)) (k : String) (v : β) :
    List (String × β) :=
  match m with
  | [] => [(k, v)]
  | (k2, v2) :: rest => if k2 = k then (k, v) :: rest else (k2, v2) :: mapSet rest k v

/-- Embedding of `TradingEngine.startBot(userId, config)`: throws
`'Bot already active for this user'` when the `activeBots` registry already
holds a runtime state for the user — the check precedes every mutation, so
the state is returned untouched.  Otherwise it registers a fresh
`BotStatus`, persists `isActive = true` for the configuration, schedules the
monitoring interval, and appends the start audit log (the
`botStatusChange` event emission has no state of its own). -/
def startBot (s : EngineState) (userId : String) (config : BotConfiguration) :
    Option String × EngineState :=
  if (s.activeBots.lookup userId).isSome then
    (some "Bot already active for this user", s)
  else
    let botStatus : BotStatus := ⟨true, userId, config.id, 0, 0⟩
    let s1 : EngineState := { s with activeBots := mapSet s.activeBots userId botStatus }
    let s2 : EngineState := { s1 with configActive := mapSet s1.configActive config.id true }
    let s3 : EngineState := { s2 with intervalHandles := userId :: s2.intervalHandles }
    let s4 : EngineState := { s3 with
      botLogs := s3.botLogs ++ [⟨userId, config.id, "INFO", "Bot iniciado com sucesso"⟩] }
    (none, s4)

/-- C6: starting a bot for a user who already has an active runtime state
fails with the `already active` error and leaves every piece of state — the
active-bot registry, the stored configuration flags, the monitoring
schedule, the trade records and the audit log — exactly as it was. -/
theorem startBot_already_active_no_side_effects (s : EngineState)
    (userId : String) (config : BotConfiguration)
    (h : (s.activeBots.lookup userId).isSome = true) :
    startBot s userId config = (some "Bot already active for this user", s)
    ∧ (startBot s userId config).2.activeBots = s.activeBots
    ∧ (startBot s userId config).2.configActive = s.configActive
    ∧ (startBot s userId config).2.intervalHandles = s.intervalHandles
    ∧ (startBot s userId config).2.trades = s.trades
    ∧ (startBot s userId config).2.botLogs = s.botLogs := by
  simp [startBot, h]

/-- Witness for C6: a state whose registry already holds user `u1`; the
second start call fails and changes nothing. -/
theorem startBot_already_active_no_side_effects_witness :
    ((⟨[("u1", ⟨true, "u1", "c1", 0, 0⟩)], [("c1", true)], ["u1"], [],
        []⟩ : EngineState).activeBots.lookup "u1").isSome = true
    ∧ (startBot ⟨[("u1", ⟨true, "u1", "c1", 0, 0⟩)], [("c1", true)], ["u1"], [], []⟩
        "u1" ⟨"c1", "WIN", 1, 500, 150, 3, true, 50, false⟩ =
      (some "Bot already active for this user",
        ⟨[("u1", ⟨true, "u1", "c1", 0, 0⟩)], [("c1", true)], ["u1"], [], []⟩)) :=
  ⟨rfl,
    (startBot_already_active_no_side_effects
      ⟨[("u1", ⟨true, "u1", "c1", 0, 0⟩)], [("c1", true)], ["u1"], [], []⟩
      "u1" ⟨"c1", "WIN", 1, 500, 150, 3, true, 50, false⟩ rfl).1⟩

/-- Embedding of `TradingEngine.calculateIndicatorsForCandle(data, index)`: `null` below
index 21; otherwise indicators over the 21 closes `data[index-20 .. index]`:
RSI(9) through the engine-side RSI, EMA(9), EMA(21), MACD = EMA(8) − EMA(17),
MACD signal = EMA of the one-element list `[macd]`, and the volatility as the
standard deviation of the last 10 closes (`closes.slice(-10)`). -/
def calculateIndicatorsForCandle (data : List Candle) (index : ℕ) :
    Option IndicatorData :=
  if index < 21 then none
  else
    let closes := ((data.drop (index - 20)).take 21).map Candle.close
    let macd := calculateEMA closes 8 - calculateEMA closes 17
    some
      { rsi := TradingEngine.calculateRSI closes 9
        ema9 := calculateEMA closes 9
        ema21 := calculateEMA closes 21
        macd := macd
        macdSignal := calculateEMA [macd] 6
        volatilidade := calculateStandardDeviation (closes.drop (closes.length - 10)) }

/-- Synthetic open position held by the backtest loop. -/
structure BacktestPosition where
  entryPrice : ℚ
  entryTime : ℕ
  direction : String
  takeProfit : ℚ
  stopLoss : ℚ
deriving Repr, DecidableEq

/-- Closed synthetic trade pushed by the backtest loop (`return` is rendered
as `tradeReturn`). -/
structure BacktestTrade where
  entryTime : ℕ
  exitTime : ℕ
  direction : String
  entryPrice : ℚ
  exitPrice : ℚ
  pointsGained : ℚ
  tradeReturn : ℚ
  reason : String
deriving Repr, DecidableEq

/-- Aggregate statistics returned by `runBacktest`. -/
structure BacktestResult where
  totalTrades : ℕ
  winningTrades : ℕ
  losingTrades : ℕ
  totalReturn : ℚ
  averageReturn : ℚ
  maxDrawdown : ℚ
  winRate : ℚ
  trades : List BacktestTrade
deriving Repr, DecidableEq

/-- One iteration of the backtest loop at index `i`, on the state
(open position, closed trades so far, running total return).  With no open
position, a positive entry decision opens one with take-profit at
entry ± targetPoints and stop-loss at entry ∓ stopLossPontos; with an open
position, the take-profit / stop-loss exit checks mirror
`monitorPosition`, settling at the configured level and recording the trade.
The `none` indicator case cannot occur since the loop starts at `i = 21`. -/
def backtestStep (marketData : List Candle) (config : BotConfiguration)
    (hour minute : ℕ)
    (st : Option BacktestPosition × List BacktestTrade × ℚ) (i : ℕ) :
    Option BacktestPosition × List BacktestTrade × ℚ :=
  let current := marketData.getD i ⟨0, 0⟩
  let contractSpec := getContractSpec config.contratoPreferido
  match calculateIndicatorsForCandle marketData i with
  | none => st
  | some indicators =>
    match st.1 with
    | none =>
      let entryScore := calculateEntryScore current indicators hour minute
      if entryScore.shouldEnter then
        let targetPoints : ℚ := (calculateTargetPoints config : ℚ)
        (some
          { entryPrice := current.close
            entryTime := current.timestamp
            direction := entryScore.direction
            takeProfit :=
              if entryScore.direction = "COMPRA" then current.close + targetPoints
              else current.close - targetPoints
            stopLoss :=
              if entryScore.direction = "COMPRA" then current.close - config.stopLossPontos
              else current.close + config.stopLossPontos },
          st.2.1, st.2.2)
      else st
    | some pos =>
      let exitHit : Option (ℚ × String) :=
        if pos.direction = "COMPRA" then
          if pos.takeProfit ≤ current.close then some (pos.takeProfit, "TAKE_PROFIT")
          else if current.close ≤ pos.stopLoss then some (pos.stopLoss, "STOP_LOSS")
          else none
        else
          if current.close ≤ pos.takeProfit then some (pos.takeProfit, "TAKE_PROFIT")
          else if pos.stopLoss ≤ current.close then some (pos.stopLoss, "STOP_LOSS")
          else none
      match exitHit with
      | none => st
      | some (exitPrice, exitReason) =>
        let pointsGained :=
          if pos.direction = "COMPRA" then exitPrice - pos.entryPrice
          else pos.entryPrice - exitPrice
        let tradeReturn := pointsGained * contractSpec.valorPonto * config.contratos
        (none,
          st.2.1 ++ [⟨pos.entryTime, current.timestamp, pos.direction, pos.entryPrice,
            exitPrice, pointsGained, tradeReturn, exitReason⟩],
          st.2.2 + tradeReturn)

/-- Max drawdown over the closed-trade sequence: the running cumulative
return is tracked against its peak, and the largest peak-to-trough drop is
kept.  Accumulator: (maxDrawdown, peak, runningTotal). -/
def maxDrawdownCalc (trades : List BacktestTrade) : ℚ :=
  (trades.foldl
    (fun acc t =>
      let runningTotal := acc.2.2 + t.tradeReturn
      let peak := if acc.2.1 < runningTotal then runningTotal else acc.2.1
      let drawdown := peak - runningTotal
      (if acc.1 < drawdown then drawdown else acc.1, peak, runningTotal))
    (0, 0, 0)).1

/-- Embedding of `TradingEngine.runBacktest` on a historical series (the series the source
fetches through `getHistoricalData` enters as the explicit `marketData`
parameter, and the wall-clock time read inside `calculateEntryScore` as
`hour`/`minute`): fewer than 50 bars throws
`'Insufficient market data for backtest'`; otherwise the loop runs over
indices 21 to `length − 1` and the aggregate statistics are computed from
the closed trades (win = return > 0, loss = return ≤ 0). -/
def runBacktest (marketData : List Candle) (config : BotConfiguration)
    (hour minute : ℕ) : Except String BacktestResult :=
  if marketData.length < 50 then
    Except.error "Insufficient market data for backtest"
  else
    let final := (List.range' 21 (marketData.length - 21)).foldl
      (backtestStep marketData config hour minute) (none, [], 0)
    let trades := final.2.1
    let totalReturn := final.2.2
    let winningTrades := (trades.filter (fun t => 0 < t.tradeReturn)).length
    let losingTrades := (trades.filter (fun t => t.tradeReturn ≤ 0)).length
    let winRate : ℚ :=
      if 0 < trades.length then (winningTrades : ℚ) / trades.length * 100 else 0
    let averageReturn : ℚ :=
      if 0 < trades.length then totalReturn / trades.length else 0
    Except.ok
      { totalTrades := trades.length
        winningTrades := winningTrades
        losingTrades := losingTrades
        totalReturn := totalReturn
        averageReturn := averageReturn
        maxDrawdown := maxDrawdownCalc trades
        winRate := winRate
        trades := trades }

/-- C7: a backtest on fewer than 50 bars fails with the insufficient-data
error and produces no partial result (the `Except.error` carries no
`BacktestResult`); on 50 bars or more it returns a result, the trade loop
iterating from index 21. -/
theorem runBacktest_data_requirements (marketData : List Candle)
    (config : BotConfiguration) (hour minute : ℕ) :
    (marketData.length < 50 →
      runBacktest marketData config hour minute =
        Except.error "Insufficient market data for backtest")
    ∧ (50 ≤ marketData.length →
      ∃ result, runBacktest marketData config hour minute = Except.ok result) := by
  constructor
  · intro h
    simp [runBacktest, h]
  · intro h
    simp only [runBacktest, if_neg (Nat.not_lt.mpr h)]
    exact ⟨_, rfl⟩

/-- Witness for C7: a 49-bar constant series fails with the error, while a
50-bar constant series yields a result. -/
theorem runBacktest_data_requirements_witness :
    (List.replicate 49 (⟨100, 0⟩ : Candle)).length < 50
    ∧ runBacktest (List.replicate 49 ⟨100, 0⟩)
        ⟨"cfg", "WIN", 1, 500, 150, 3, true, 50, false⟩ 10 0 =
      Except.error "Insufficient market data for backtest"
    ∧ 50 ≤ (List.replicate 50 (⟨100, 0⟩ : Candle)).length
    ∧ ∃ result, runBacktest (List.replicate 50 ⟨100, 0⟩)
        ⟨"cfg", "WIN", 1, 500, 150, 3, true, 50, false⟩ 10 0 = Except.ok result :=
  ⟨by simp,
    (runBacktest_data_requirements (List.replicate 49 ⟨100, 0⟩)
      ⟨"cfg", "WIN", 1, 500, 150, 3, true, 50, false⟩ 10 0).1 (by simp),
    by simp,
    (runBacktest_data_requirements (List.replicate 50 ⟨100, 0⟩)
      ⟨"cfg", "WIN", 1, 500, 150, 3, true, 50, false⟩ 10 0).2 (by simp)⟩
